import Mathlib

/-!
Verification of the walking-engine mode transition policy and step
smoothing (`Walking` in `crates/walking_engine/src/mode/walking.rs`).

Real-valued physical quantities (meters, radians, seconds) are embedded
as rationals. Collaborator components whose code is out of scope
(`Step`, `Side`, `StepPlan`, `StepState`, the balance predicate
`should_catch`, and the constructors of the other mode variants) are
modelled from the specification; the transition operations
`Walking.stand` / `Walking.walk` / `Walking.kick` and the smoothing
constructor `Walking.new` are translated from the source.
-/

namespace Hulk

attribute [local semireducible] Rat.add Rat.sub Rat.mul Rat.inv

/-- A displacement request for one step: forward (m), left (m), turn (rad). -/
structure Step where
  forward : ℚ
  left : ℚ
  turn : ℚ
deriving DecidableEq

/-- Modelled from the spec: `Step::ZERO` is the neutral step. -/
def Step.ZERO : Step := ⟨0, 0, 0⟩

/-- Modelled from the spec: `Side` identifies the support (stance) foot. -/
inductive Side where
  | left
  | right
deriving DecidableEq

/-- Modelled from the spec: `opposite()` flips the side. -/
def Side.opposite : Side → Side
  | .left => .right
  | .right => .left

/-- Kick shape selector (`KickVariant` in `types/motion_command.rs`). -/
inductive KickVariant where
  | forward
  | turn
  | side
deriving DecidableEq

/-- Modelled from the spec: a planar foot pose (position and orientation). -/
structure Pose2 where
  x : ℚ
  y : ℚ
  theta : ℚ
deriving DecidableEq

/-- Modelled from the spec: the pair of foot poses at step completion. -/
structure Feet where
  support_sole : Pose2
  swing_sole : Pose2
deriving DecidableEq

/-- The tuning parameters of `Context` used by the `Walking` mode. -/
structure Parameters where
  max_forward_acceleration : ℚ
  max_turn_acceleration : ℚ
  forward_turn_threshold : ℚ
  forward_turn_reduction : ℚ
  step_timeout : ℚ
deriving DecidableEq

/-- Modelled from the spec: `StepPlan` stores the support side and the
end-of-step foot poses derived from the requested step. -/
structure StepPlan where
  support_side : Side
  end_feet : Feet
deriving DecidableEq

/-- Modelled from the spec: `StepState` owns one plan plus an
elapsed-phase counter advanced by `tick`. -/
structure StepState where
  plan : StepPlan
  time_since_start : ℚ
deriving DecidableEq

/-- Modelled from the spec: a fresh `StepState` starts its phase counter
at zero. -/
def StepState.new (plan : StepPlan) : StepState := ⟨plan, 0⟩

/-- Modelled from the spec: the per-cycle read-only bundle. The
trajectory derivation of `StepPlan::new_from_request`, the sensor-driven
support-switch detection and the balance predicate are collaborator code
out of scope; `Context` supplies them as functions, as the spec leaves
their numeric form to the balance estimator and sensors. -/
structure Context where
  parameters : Parameters
  plan_end_feet : Step → Side → Feet
  support_switched : StepState → Bool
  catch_predicate : Feet → Side → Bool

/-- Modelled from the spec: `StepPlan::new_from_request` derives the
end-of-step foot poses from the requested step and support side. -/
def StepPlan.new_from_request (context : Context) (step : Step) (support_side : Side) :
    StepPlan :=
  { support_side := support_side, end_feet := context.plan_end_feet step support_side }

/-- Modelled from the spec: `is_support_switched` reports the
sensor/phase-driven support-exchange event for the current cycle. -/
def StepState.is_support_switched (self : StepState) (context : Context) : Bool :=
  context.support_switched self

/-- Modelled from the spec: `is_timeouted` reports true once elapsed
phase time exceeds the configured timeout. -/
def StepState.is_timeouted (self : StepState) (parameters : Parameters) : Bool :=
  decide (parameters.step_timeout < self.time_since_start)

/-- Modelled from the spec: the balance predicate
`should_catch(context, end_feet, support_side)`, whose numeric form is
left to the balance estimator; advisory input evaluated each cycle. -/
def should_catch (context : Context) (end_feet : Feet) (support_side : Side) : Bool :=
  context.catch_predicate end_feet support_side

/-- Parameters of an in-progress in-walk kick. -/
structure KickState where
  variant : KickVariant
  kicking_side : Side
  strength : ℚ
deriving DecidableEq

/-- Modelled from the spec: `KickState::new`. -/
def KickState.new (variant : KickVariant) (kicking_side : Side) (strength : ℚ) :
    KickState :=
  ⟨variant, kicking_side, strength⟩

/-- The `Walking` mode state: current step state plus the
acceleration-smoothed running target. -/
structure Walking where
  step : StepState
  requested_step : Step
deriving DecidableEq

/-- Modelled from the spec: `Catching { step, support_side }`. -/
structure Catching where
  step : StepState
  support_side : Side
deriving DecidableEq

/-- Modelled from the spec: `Kicking { kick, support_side }`. -/
structure Kicking where
  kick : KickState
  support_side : Side
deriving DecidableEq

/-- Modelled from the spec: `Stopping { support_side }`. -/
structure Stopping where
  support_side : Side
deriving DecidableEq

/-- The mode union of the walking engine. -/
inductive Mode where
  | walking (w : Walking)
  | catching (c : Catching)
  | kicking (k : Kicking)
  | stopping (s : Stopping)
deriving DecidableEq

/-- Modelled from the spec: `Catching::new` wraps the current step state
and support side into the safety-recovery mode. -/
def Catching.new (_context : Context) (step : StepState) (support_side : Side) : Catching :=
  ⟨step, support_side⟩

/-- Modelled from the spec: `Kicking::new` wraps the kick state and the
support side. -/
def Kicking.new (_context : Context) (kick : KickState) (support_side : Side) : Kicking :=
  ⟨kick, support_side⟩

/-- Modelled from the spec: `Stopping::new` records the support side to
decelerate on. -/
def Stopping.new (_context : Context) (support_side : Side) : Stopping :=
  ⟨support_side⟩

/-- Rust `f32::clamp` on its non-panicking domain (`lo ≤ hi`): below the
lower bound gives the lower bound, above the upper bound the upper bound,
otherwise the value itself. -/
def clamp (x lo hi : ℚ) : ℚ :=
  if x < lo then lo else if hi < x then hi else x

/-- Rust `f32::clamp` with its `assert!(min <= max)`: `none` models the
panic when the bounds are inverted. -/
def checkedClamp (x lo hi : ℚ) : Option ℚ :=
  if lo ≤ hi then some (clamp x lo hi) else none

/-- The asymmetric forward-acceleration bounds of `Walking::new`
(walking.rs lines 34-49): `(backward_acceleration, forward_acceleration)`. -/
def forwardAccelerationBounds (parameters : Parameters) (last_requested_step : Step) :
    ℚ × ℚ :=
  if 0 < last_requested_step.forward then
    (-last_requested_step.forward, parameters.max_forward_acceleration)
  else if last_requested_step.forward = 0 then
    (-parameters.max_forward_acceleration, parameters.max_forward_acceleration)
  else
    (-parameters.max_forward_acceleration, -last_requested_step.forward)

/-- The turn-acceleration bound of `Walking::new` (walking.rs lines
51-56): reduced when the previous forward magnitude exceeds the
threshold. -/
def turnAcceleration (parameters : Parameters) (last_requested_step : Step) : ℚ :=
  if parameters.forward_turn_threshold < |last_requested_step.forward| then
    parameters.max_turn_acceleration * parameters.forward_turn_reduction
  else
    parameters.max_turn_acceleration

/-- `Walking::new` (walking.rs lines 28-73): smooth the requested step
against the previous smoothed step and start a fresh plan on the given
support side. -/
def Walking.new (context : Context) (requested_step : Step) (support_side : Side)
    (last_requested_step : Step) : Walking :=
  let bounds := forwardAccelerationBounds context.parameters last_requested_step
  let turn_acceleration := turnAcceleration context.parameters last_requested_step
  let requested_step : Step :=
    { forward := last_requested_step.forward +
        clamp (requested_step.forward - last_requested_step.forward) bounds.1 bounds.2
      left := requested_step.left
      turn := last_requested_step.turn +
        clamp (requested_step.turn - last_requested_step.turn)
          (-turn_acceleration) turn_acceleration }
  let plan := StepPlan.new_from_request context requested_step support_side
  let step := StepState.new plan
  { step := step, requested_step := requested_step }

/-- `Walking::new_with_step` (walking.rs lines 75-80). -/
def Walking.new_with_step (step : StepState) (requested_step : Step) : Walking :=
  { step := step, requested_step := requested_step }

/-- `Walking::stand` (walking.rs lines 84-108). -/
def Walking.stand (self : Walking) (context : Context) : Mode :=
  let current_step := self.step
  if current_step.is_support_switched context ||
      current_step.is_timeouted context.parameters then
    Mode.stopping (Stopping.new context current_step.plan.support_side.opposite)
  else if should_catch context self.step.plan.end_feet self.step.plan.support_side then
    Mode.catching (Catching.new context self.step self.step.plan.support_side)
  else
    Mode.walking self

/-- `Walking::walk` (walking.rs lines 110-144). -/
def Walking.walk (self : Walking) (context : Context) (requested_step : Step) : Mode :=
  let current_step := self.step
  if current_step.is_support_switched context then
    Mode.walking (Walking.new context requested_step
      current_step.plan.support_side.opposite self.requested_step)
  else if should_catch context self.step.plan.end_feet self.step.plan.support_side then
    Mode.catching (Catching.new context self.step self.step.plan.support_side)
  else if current_step.is_timeouted context.parameters then
    Mode.walking (Walking.new context Step.ZERO
      current_step.plan.support_side.opposite self.requested_step)
  else
    Mode.walking self

/-- `Walking::kick` (walking.rs lines 146-196). -/
def Walking.kick (self : Walking) (context : Context) (variant : KickVariant)
    (kicking_side : Side) (strength : ℚ) : Mode :=
  let current_step := self.step
  if current_step.is_support_switched context then
    let next_support_side := current_step.plan.support_side.opposite
    if next_support_side ≠ kicking_side then
      Mode.walking (Walking.new context Step.ZERO next_support_side self.requested_step)
    else
      Mode.kicking (Kicking.new context
        (KickState.new variant kicking_side strength) next_support_side)
  else if should_catch context self.step.plan.end_feet self.step.plan.support_side then
    Mode.catching (Catching.new context self.step self.step.plan.support_side)
  else if current_step.is_timeouted context.parameters then
    Mode.walking (Walking.new context Step.ZERO
      current_step.plan.support_side.opposite self.requested_step)
  else
    Mode.walking self

/-- Whether a mode is the safety-recovery `Catching` variant. -/
def Mode.isCatching : Mode → Bool
  | .catching _ => true
  | _ => false

/-- Whether a mode is the `Walking` variant. -/
def Mode.isWalking : Mode → Bool
  | .walking _ => true
  | _ => false

/-- Whether a mode is the `Kicking` variant. -/
def Mode.isKicking : Mode → Bool
  | .kicking _ => true
  | _ => false

/-- The support side stored in a mode: for `Walking` the active plan's
support side, for the other variants the recorded side. -/
def Mode.supportSide : Mode → Side
  | .walking w => w.step.plan.support_side
  | .catching c => c.support_side
  | .kicking k => k.support_side
  | .stopping s => s.support_side

/-! Concrete fixtures used to evaluate the transition policy on
explicit inputs. -/

/-- A plausible tuning-parameter set with small rational values. -/
def testParameters : Parameters :=
  { max_forward_acceleration := 1/10
    max_turn_acceleration := 1/2
    forward_turn_threshold := 1/20
    forward_turn_reduction := 1/2
    step_timeout := 1/4 }

/-- A neutral foot pose. -/
def testPose : Pose2 := ⟨0, 0, 0⟩

/-- A neutral pair of end-of-step foot poses. -/
def testFeet : Feet := ⟨testPose, testPose⟩

/-- A context on which neither the support-switch event nor the balance
predicate fires. -/
def quietContext : Context :=
  { parameters := testParameters
    plan_end_feet := fun _ _ => testFeet
    support_switched := fun _ => false
    catch_predicate := fun _ _ => false }

/-- A context on which the balance predicate fires but the support
switch does not. -/
def catchContext : Context :=
  { quietContext with catch_predicate := fun _ _ => true }

/-- A context on which the support-switch event fires but the balance
predicate does not. -/
def switchContext : Context :=
  { quietContext with support_switched := fun _ => true }

/-- A context on which the support-switch event and the balance
predicate fire on the same cycle. -/
def switchCatchContext : Context :=
  { quietContext with
    support_switched := fun _ => true
    catch_predicate := fun _ _ => true }

/-- A walking state at phase zero, support side left, neutral smoothed
step. -/
def freshWalking : Walking :=
  { step := ⟨⟨Side.left, testFeet⟩, 0⟩, requested_step := Step.ZERO }

/-- A walking state whose elapsed phase (1 s) exceeds the configured
timeout (1/4 s) of `testParameters`. -/
def timeoutedWalking : Walking :=
  { step := ⟨⟨Side.left, testFeet⟩, 1⟩, requested_step := Step.ZERO }

/-- A parameter set whose turn-reduction factor is 1, so the reduced
turn bound is not strictly below the maximum. -/
def unreducedParameters : Parameters :=
  { max_forward_acceleration := 1/10
    max_turn_acceleration := 1/2
    forward_turn_threshold := 1/20
    forward_turn_reduction := 1
    step_timeout := 1/4 }

/-! General helper lemmas. -/

theorem clamp_mem (x lo hi : ℚ) (h : lo ≤ hi) :
    lo ≤ clamp x lo hi ∧ clamp x lo hi ≤ hi := by
  unfold clamp
  split_ifs with h1 h2 <;> constructor <;> linarith

theorem walking_new_forward (context : Context) (requested_step : Step)
    (support_side : Side) (last_requested_step : Step) :
    (Walking.new context requested_step support_side last_requested_step).requested_step.forward
      = last_requested_step.forward +
          clamp (requested_step.forward - last_requested_step.forward)
            (forwardAccelerationBounds context.parameters last_requested_step).1
            (forwardAccelerationBounds context.parameters last_requested_step).2 := rfl

theorem walking_new_turn (context : Context) (requested_step : Step)
    (support_side : Side) (last_requested_step : Step) :
    (Walking.new context requested_step support_side last_requested_step).requested_step.turn
      = last_requested_step.turn +
          clamp (requested_step.turn - last_requested_step.turn)
            (-(turnAcceleration context.parameters last_requested_step))
            (turnAcceleration context.parameters last_requested_step) := rfl

theorem walking_new_support_side (context : Context) (requested_step : Step)
    (support_side : Side) (last_requested_step : Step) :
    (Walking.new context requested_step support_side last_requested_step).step.plan.support_side
      = support_side := rfl

theorem turnAcceleration_nonneg_le (parameters : Parameters)
    (last_requested_step : Step)
    (ht : 0 ≤ parameters.max_turn_acceleration)
    (hr0 : 0 ≤ parameters.forward_turn_reduction)
    (hr1 : parameters.forward_turn_reduction ≤ 1) :
    0 ≤ turnAcceleration parameters last_requested_step ∧
      turnAcceleration parameters last_requested_step ≤ parameters.max_turn_acceleration := by
  unfold turnAcceleration
  split_ifs
  · exact ⟨mul_nonneg ht hr0, by nlinarith⟩
  · exact ⟨ht, le_refl _⟩

/-- Claim C1, counterexample: on a cycle where the support switch fires
together with the balance predicate, `Walking::walk` yields `Walking`,
not `Catching`, so `should_catch` being true does not force `Catching`
under every requested action. -/
theorem walk_catch_overridden_by_switch_cx :
    should_catch switchCatchContext freshWalking.step.plan.end_feet
      freshWalking.step.plan.support_side = true ∧
    freshWalking.step.is_support_switched switchCatchContext = true ∧
    (freshWalking.walk switchCatchContext ⟨1/10, 0, 0⟩).isCatching = false ∧
    (freshWalking.walk switchCatchContext ⟨1/10, 0, 0⟩).isWalking = true := by
  decide

/-- Claim C1 (amended): whenever `should_catch` is true and the
support-switch check does not fire, `walk` and `kick` yield `Catching`
(`walk` in particular never yields `Walking`), and `stand` yields
`Catching` provided its timeout check does not fire either. -/
theorem catch_preempts_when_no_switch (context : Context) (w : Walking)
    (requested_step : Step) (variant : KickVariant) (kicking_side : Side) (strength : ℚ)
    (h_catch : should_catch context w.step.plan.end_feet w.step.plan.support_side = true)
    (h_switch : w.step.is_support_switched context = false) :
    (w.walk context requested_step).isCatching = true ∧
    (w.walk context requested_step).isWalking = false ∧
    (w.kick context variant kicking_side strength).isCatching = true ∧
    (w.step.is_timeouted context.parameters = false →
      (w.stand context).isCatching = true) := by
  refine ⟨?_, ?_, ?_, fun h_timeout => ?_⟩
  · simp [Walking.walk, h_catch, h_switch, Mode.isCatching]
  · simp [Walking.walk, h_catch, h_switch, Mode.isWalking]
  · simp [Walking.kick, h_catch, h_switch, Mode.isCatching]
  · simp [Walking.stand, h_catch, h_switch, h_timeout, Mode.isCatching]

/-- Claim C1, witness: with the balance predicate firing and no support
switch, all three transitions yield `Catching` on a concrete state. -/
theorem catch_preempts_when_no_switch_witness :
    (freshWalking.walk catchContext Step.ZERO).isCatching = true ∧
    (freshWalking.walk catchContext Step.ZERO).isWalking = false ∧
    (freshWalking.kick catchContext KickVariant.forward Side.left (1/2)).isCatching = true ∧
    (freshWalking.stand catchContext).isCatching = true := by
  have h := catch_preempts_when_no_switch catchContext freshWalking Step.ZERO
    KickVariant.forward Side.left (1/2) (by decide) (by decide)
  exact ⟨h.1, h.2.1, h.2.2.1, h.2.2.2 (by decide)⟩

/-- Claim C2, counterexample: `stand` does not check the catch
predicate before the timeout — its first branch is support-switch OR
timeout. On a cycle with no support switch where the balance predicate
and the timeout both fire, `stand` returns `Stopping`, not the
`Catching` that the claimed catch-second/timeout-third order would
produce. -/
theorem stand_timeout_beats_catch_cx :
    timeoutedWalking.step.is_support_switched catchContext = false ∧
    should_catch catchContext timeoutedWalking.step.plan.end_feet
      timeoutedWalking.step.plan.support_side = true ∧
    timeoutedWalking.step.is_timeouted catchContext.parameters = true ∧
    timeoutedWalking.stand catchContext =
      Mode.stopping (Stopping.new catchContext Side.right) ∧
    (timeoutedWalking.stand catchContext).isCatching = false := by
  decide

/-- Claim C2 (amended): `walk` and `kick` evaluate support-switch
first, catch second, timeout third, default last, while `stand`
evaluates its combined support-switch-or-timeout check first, catch
second, default last. Stated behaviorally: when the switch fires, every
operation yields its switch-driven result (Stopping / new Walking plan
/ Kicking-or-pre-step) and never `Catching`, regardless of the balance
predicate; with no switch, a firing balance predicate makes `walk` and
`kick` yield `Catching` even when the step is also timeouted; with no
switch, a timeouted step makes `stand` yield `Stopping`, never
`Catching`, even when the balance predicate fires. -/
theorem transition_evaluation_order (context : Context) (w : Walking)
    (requested_step : Step) (variant : KickVariant) (kicking_side : Side) (strength : ℚ) :
    (w.step.is_support_switched context = true →
      w.stand context =
        Mode.stopping (Stopping.new context w.step.plan.support_side.opposite) ∧
      w.walk context requested_step =
        Mode.walking (Walking.new context requested_step
          w.step.plan.support_side.opposite w.requested_step) ∧
      w.kick context variant kicking_side strength =
        (if w.step.plan.support_side.opposite ≠ kicking_side then
          Mode.walking (Walking.new context Step.ZERO w.step.plan.support_side.opposite
            w.requested_step)
        else
          Mode.kicking (Kicking.new context (KickState.new variant kicking_side strength)
            w.step.plan.support_side.opposite)) ∧
      (w.stand context).isCatching = false ∧
      (w.walk context requested_step).isCatching = false ∧
      (w.kick context variant kicking_side strength).isCatching = false) ∧
    (w.step.is_support_switched context = false →
      should_catch context w.step.plan.end_feet w.step.plan.support_side = true →
      (w.walk context requested_step).isCatching = true ∧
      (w.kick context variant kicking_side strength).isCatching = true) ∧
    (w.step.is_support_switched context = false →
      w.step.is_timeouted context.parameters = true →
      w.stand context =
        Mode.stopping (Stopping.new context w.step.plan.support_side.opposite) ∧
      (w.stand context).isCatching = false) := by
  refine ⟨fun h_switch => ?_, fun h_switch h_catch => ?_, fun h_switch h_timeout => ?_⟩
  · refine ⟨?_, ?_, ?_, ?_, ?_, ?_⟩ <;>
      simp [Walking.stand, Walking.walk, Walking.kick, h_switch, Mode.isCatching]
    all_goals split_ifs <;> simp [Mode.isCatching]
  · constructor <;> simp [Walking.walk, Walking.kick, h_switch, h_catch, Mode.isCatching]
  · constructor <;> simp [Walking.stand, h_switch, h_timeout, Mode.isCatching]

/-- Claim C2, witness: on a switch-and-catch cycle `walk` is not
`Catching`; on a catch-and-timeout cycle without a switch, `walk`
yields `Catching` while `stand` does not. -/
theorem transition_evaluation_order_witness :
    (freshWalking.walk switchCatchContext Step.ZERO).isCatching = false ∧
    (timeoutedWalking.walk catchContext Step.ZERO).isCatching = true ∧
    (timeoutedWalking.stand catchContext).isCatching = false := by
  have h1 := transition_evaluation_order switchCatchContext freshWalking Step.ZERO
    KickVariant.forward Side.left (1/2)
  have h2 := transition_evaluation_order catchContext timeoutedWalking Step.ZERO
    KickVariant.forward Side.left (1/2)
  exact ⟨(h1.1 (by decide)).2.2.2.2.1, (h2.2.1 (by decide) (by decide)).1,
    (h2.2.2 (by decide) (by decide)).2⟩

/-- Claim C3: the smoothed forward value equals the previous forward
plus the delta clamped to the asymmetric bounds `(-previous, +max)` for
positive previous forward, `(±max)` for zero, `(-max, -previous)` for
negative; hence a positive previous forward never overshoots below zero
in one tick, and mirrored for negative. -/
theorem forward_smoothing_bounds (context : Context) (requested_step : Step)
    (support_side : Side) (last_requested_step : Step)
    (h_acc : 0 ≤ context.parameters.max_forward_acceleration) :
    (0 < last_requested_step.forward →
      (Walking.new context requested_step support_side
          last_requested_step).requested_step.forward
        = last_requested_step.forward +
            clamp (requested_step.forward - last_requested_step.forward)
              (-last_requested_step.forward)
              context.parameters.max_forward_acceleration ∧
      0 ≤ (Walking.new context requested_step support_side
            last_requested_step).requested_step.forward) ∧
    (last_requested_step.forward = 0 →
      (Walking.new context requested_step support_side
          last_requested_step).requested_step.forward
        = last_requested_step.forward +
            clamp (requested_step.forward - last_requested_step.forward)
              (-context.parameters.max_forward_acceleration)
              context.parameters.max_forward_acceleration) ∧
    (last_requested_step.forward < 0 →
      (Walking.new context requested_step support_side
          last_requested_step).requested_step.forward
        = last_requested_step.forward +
            clamp (requested_step.forward - last_requested_step.forward)
              (-context.parameters.max_forward_acceleration)
              (-last_requested_step.forward) ∧
      (Walking.new context requested_step support_side
          last_requested_step).requested_step.forward ≤ 0) := by
  refine ⟨fun hpos => ?_, fun hzero => ?_, fun hneg => ?_⟩
  · rw [walking_new_forward]
    unfold forwardAccelerationBounds
    rw [if_pos hpos]
    have hm := clamp_mem (requested_step.forward - last_requested_step.forward)
      (-last_requested_step.forward) context.parameters.max_forward_acceleration
      (by linarith)
    exact ⟨rfl, by linarith [hm.1]⟩
  · rw [walking_new_forward]
    unfold forwardAccelerationBounds
    rw [if_neg (by linarith), if_pos hzero]
  · rw [walking_new_forward]
    unfold forwardAccelerationBounds
    rw [if_neg (by linarith), if_neg (by linarith)]
    have hm := clamp_mem (requested_step.forward - last_requested_step.forward)
      (-context.parameters.max_forward_acceleration) (-last_requested_step.forward)
      (by linarith)
    exact ⟨rfl, by linarith [hm.2]⟩

/-- Claim C3, witness: from previous forward `1/5` and requested
forward `-1`, the smoothed forward falls back to exactly zero, not
below. -/
theorem forward_smoothing_bounds_witness :
    0 ≤ (Walking.new quietContext ⟨-1, 0, 0⟩ Side.left
        ⟨1/5, 0, 0⟩).requested_step.forward := by
  have h := forward_smoothing_bounds quietContext ⟨-1, 0, 0⟩ Side.left ⟨1/5, 0, 0⟩
    (by decide)
  exact (h.1 (by decide)).2

/-- Claim C4, counterexample: with `max_forward_acceleration = 1/10`,
previous forward `1` and requested forward `0`, the smoothed forward
drops from `1` to `0` in one tick — a change of `1`, far above the
configured acceleration bound. -/
theorem forward_delta_exceeds_acceleration_cx :
    ¬ (|(Walking.new quietContext Step.ZERO Side.left
          ⟨1, 0, 0⟩).requested_step.forward - (1 : ℚ)|
        ≤ quietContext.parameters.max_forward_acceleration) := by
  decide

/-- Claim C4 (amended): per tick, the smoothed forward changes by at
most `max(max_forward_acceleration, |previous_forward|)` (the backward
bound toward zero is the previous magnitude itself), and the smoothed
turn changes by at most `max_turn_acceleration`, for nonnegative
acceleration parameters and a reduction factor in `[0, 1]`. -/
theorem smoothed_step_delta_bounded (context : Context) (requested_step : Step)
    (support_side : Side) (last_requested_step : Step)
    (hf : 0 ≤ context.parameters.max_forward_acceleration)
    (ht : 0 ≤ context.parameters.max_turn_acceleration)
    (hr0 : 0 ≤ context.parameters.forward_turn_reduction)
    (hr1 : context.parameters.forward_turn_reduction ≤ 1) :
    |(Walking.new context requested_step support_side
        last_requested_step).requested_step.forward - last_requested_step.forward|
      ≤ max context.parameters.max_forward_acceleration |last_requested_step.forward| ∧
    |(Walking.new context requested_step support_side
        last_requested_step).requested_step.turn - last_requested_step.turn|
      ≤ context.parameters.max_turn_acceleration := by
  rw [walking_new_forward, walking_new_turn, add_sub_cancel_left, add_sub_cancel_left]
  constructor
  · have hmax1 := le_max_left context.parameters.max_forward_acceleration
      |last_requested_step.forward|
    have hmax2 := le_max_right context.parameters.max_forward_acceleration
      |last_requested_step.forward|
    unfold forwardAccelerationBounds
    split_ifs with h1 h2 <;> dsimp only
    · have hm := clamp_mem (requested_step.forward - last_requested_step.forward)
        (-last_requested_step.forward) context.parameters.max_forward_acceleration
        (by linarith)
      rw [abs_le]
      exact ⟨by linarith [hm.1, hmax2, abs_of_pos h1],
        by linarith [hm.2, hmax1]⟩
    · have hm := clamp_mem (requested_step.forward - last_requested_step.forward)
        (-context.parameters.max_forward_acceleration)
        context.parameters.max_forward_acceleration (by linarith)
      rw [abs_le]
      exact ⟨by linarith [hm.1, hmax1], by linarith [hm.2, hmax1]⟩
    · have h3 : last_requested_step.forward < 0 :=
        lt_of_le_of_ne (le_of_not_lt h1) h2
      have hm := clamp_mem (requested_step.forward - last_requested_step.forward)
        (-context.parameters.max_forward_acceleration) (-last_requested_step.forward)
        (by linarith)
      rw [abs_le]
      exact ⟨by linarith [hm.1, hmax1],
        by linarith [hm.2, hmax2, abs_of_neg h3]⟩
  · have hta := turnAcceleration_nonneg_le context.parameters last_requested_step
      ht hr0 hr1
    have hm := clamp_mem (requested_step.turn - last_requested_step.turn)
      (-(turnAcceleration context.parameters last_requested_step))
      (turnAcceleration context.parameters last_requested_step) (by linarith [hta.1])
    rw [abs_le]
    exact ⟨by linarith [hm.1, hta.2], by linarith [hm.2, hta.2]⟩

/-- Claim C4, witness: from a zero previous step, a large request is
smoothed to at most the acceleration bound in both forward and turn. -/
theorem smoothed_step_delta_bounded_witness :
    |(Walking.new quietContext ⟨1, 0, 1⟩ Side.left
        Step.ZERO).requested_step.forward - Step.ZERO.forward|
      ≤ max quietContext.parameters.max_forward_acceleration |Step.ZERO.forward| ∧
    |(Walking.new quietContext ⟨1, 0, 1⟩ Side.left
        Step.ZERO).requested_step.turn - Step.ZERO.turn|
      ≤ quietContext.parameters.max_turn_acceleration :=
  smoothed_step_delta_bounded quietContext ⟨1, 0, 1⟩ Side.left Step.ZERO
    (by decide) (by decide) (by decide) (by decide)

/-- Claim C5, counterexample: on a cycle where `is_support_switched` is
false but the step is timeouted (balance predicate false), a walk
request toggles the support side from left to right — the side changes
on a cycle where `is_support_switched` does not report true. -/
theorem support_side_toggles_on_timeout_cx :
    timeoutedWalking.step.is_support_switched quietContext = false ∧
    timeoutedWalking.step.plan.support_side = Side.left ∧
    (timeoutedWalking.walk quietContext Step.ZERO).supportSide = Side.right := by
  decide

/-- Claim C5 (amended): under a walk request the support side toggles
to the opposite side exactly on the cycles where `is_support_switched`
is true or where the step is timeouted with the catch predicate false;
it is unchanged on every other cycle, and thus never toggles twice in
one tick. -/
theorem walk_support_side_characterization (context : Context) (w : Walking)
    (requested_step : Step) :
    (w.walk context requested_step).supportSide =
      if w.step.is_support_switched context = true ∨
          (should_catch context w.step.plan.end_feet w.step.plan.support_side = false ∧
            w.step.is_timeouted context.parameters = true) then
        w.step.plan.support_side.opposite
      else
        w.step.plan.support_side := by
  cases h1 : w.step.is_support_switched context <;>
    cases h2 : should_catch context w.step.plan.end_feet w.step.plan.support_side <;>
      cases h3 : w.step.is_timeouted context.parameters <;>
        simp [Walking.walk, h1, h2, h3, Mode.supportSide, walking_new_support_side,
          Catching.new]

/-- Claim C5, witness: the characterization evaluated on a concrete
timeouted state, where the toggle condition holds via the timeout
branch. -/
theorem walk_support_side_characterization_witness :
    (timeoutedWalking.walk quietContext Step.ZERO).supportSide =
      if timeoutedWalking.step.is_support_switched quietContext = true ∨
          (should_catch quietContext timeoutedWalking.step.plan.end_feet
              timeoutedWalking.step.plan.support_side = false ∧
            timeoutedWalking.step.is_timeouted quietContext.parameters = true) then
        timeoutedWalking.step.plan.support_side.opposite
      else
        timeoutedWalking.step.plan.support_side :=
  walk_support_side_characterization quietContext timeoutedWalking Step.ZERO

/-- Claim C6: a walk request on a non-switched, non-catching but
timeouted step yields a new `Walking` built from `Step::ZERO` on the
opposite support side, smoothed against the previous `requested_step`. -/
theorem walk_timeout_recovery (context : Context) (w : Walking) (requested_step : Step)
    (h_switch : w.step.is_support_switched context = false)
    (h_catch : should_catch context w.step.plan.end_feet w.step.plan.support_side = false)
    (h_timeout : w.step.is_timeouted context.parameters = true) :
    w.walk context requested_step =
      Mode.walking (Walking.new context Step.ZERO w.step.plan.support_side.opposite
        w.requested_step) := by
  simp [Walking.walk, h_switch, h_catch, h_timeout]

/-- Claim C6, witness: the timeout recovery evaluated on a concrete
timeouted walking state. -/
theorem walk_timeout_recovery_witness :
    timeoutedWalking.walk quietContext ⟨1, 1, 1⟩ =
      Mode.walking (Walking.new quietContext Step.ZERO
        timeoutedWalking.step.plan.support_side.opposite
        timeoutedWalking.requested_step) :=
  walk_timeout_recovery quietContext timeoutedWalking ⟨1, 1, 1⟩
    (by decide) (by decide) (by decide)

/-- Claim C7: a kick request at a support switch enters `Kicking` only
when the next support side equals the requested kicking side; on a
mismatch it yields `Walking` with a `Step::ZERO` pre-step on the next
support side instead. -/
theorem kick_side_mismatch_prestep (context : Context) (w : Walking)
    (variant : KickVariant) (kicking_side : Side) (strength : ℚ)
    (h_switch : w.step.is_support_switched context = true) :
    (w.step.plan.support_side.opposite ≠ kicking_side →
      w.kick context variant kicking_side strength =
        Mode.walking (Walking.new context Step.ZERO w.step.plan.support_side.opposite
          w.requested_step) ∧
      (w.kick context variant kicking_side strength).isKicking = false) ∧
    (w.step.plan.support_side.opposite = kicking_side →
      w.kick context variant kicking_side strength =
        Mode.kicking (Kicking.new context (KickState.new variant kicking_side strength)
          w.step.plan.support_side.opposite)) := by
  constructor
  · intro h_mismatch
    constructor <;> simp [Walking.kick, h_switch, h_mismatch, Mode.isKicking]
  · intro h_match
    simp [Walking.kick, h_switch, h_match]

/-- Claim C7, witness: requesting a left kick at a support switch whose
next support side is right yields `Walking`, not `Kicking`. -/
theorem kick_side_mismatch_prestep_witness :
    freshWalking.kick switchContext KickVariant.forward Side.left (1/2) =
      Mode.walking (Walking.new switchContext Step.ZERO
        freshWalking.step.plan.support_side.opposite freshWalking.requested_step) ∧
    (freshWalking.kick switchContext KickVariant.forward Side.left (1/2)).isKicking
      = false := by
  have h := kick_side_mismatch_prestep switchContext freshWalking KickVariant.forward
    Side.left (1/2) (by decide)
  exact h.1 (by decide)

/-- Claim C8, counterexample: with a turn-reduction factor of `1`, the
reduced turn bound taken when the previous forward magnitude exceeds
the threshold equals `max_turn_acceleration * forward_turn_reduction`
but is not strictly less than `max_turn_acceleration`. -/
theorem turn_reduction_not_strict_cx :
    unreducedParameters.forward_turn_threshold
        < |(⟨1/5, 0, 0⟩ : Step).forward| ∧
    turnAcceleration unreducedParameters ⟨1/5, 0, 0⟩ =
      unreducedParameters.max_turn_acceleration *
        unreducedParameters.forward_turn_reduction ∧
    ¬ turnAcceleration unreducedParameters ⟨1/5, 0, 0⟩ <
        unreducedParameters.max_turn_acceleration := by
  decide

/-- Claim C8 (amended): above the forward-turn threshold the effective
turn bound equals `max_turn_acceleration * forward_turn_reduction` —
strictly less than `max_turn_acceleration` provided the maximum is
positive and the reduction factor is below one — otherwise the bound is
`max_turn_acceleration`; the smoothed turn is the previous turn plus
the delta clamped to plus/minus that bound. -/
theorem turn_acceleration_characterization (context : Context) (requested_step : Step)
    (support_side : Side) (last_requested_step : Step) :
    (context.parameters.forward_turn_threshold < |last_requested_step.forward| →
      turnAcceleration context.parameters last_requested_step =
        context.parameters.max_turn_acceleration *
          context.parameters.forward_turn_reduction ∧
      (0 < context.parameters.max_turn_acceleration →
        context.parameters.forward_turn_reduction < 1 →
        turnAcceleration context.parameters last_requested_step <
          context.parameters.max_turn_acceleration)) ∧
    (¬ context.parameters.forward_turn_threshold < |last_requested_step.forward| →
      turnAcceleration context.parameters last_requested_step =
        context.parameters.max_turn_acceleration) ∧
    (Walking.new context requested_step support_side
        last_requested_step).requested_step.turn =
      last_requested_step.turn +
        clamp (requested_step.turn - last_requested_step.turn)
          (-(turnAcceleration context.parameters last_requested_step))
          (turnAcceleration context.parameters last_requested_step) := by
  refine ⟨fun h_thr => ⟨?_, fun h_pos h_red => ?_⟩, fun h_thr => ?_, walking_new_turn ..⟩
  · unfold turnAcceleration
    rw [if_pos h_thr]
  · unfold turnAcceleration
    rw [if_pos h_thr]
    nlinarith
  · unfold turnAcceleration
    rw [if_neg h_thr]

/-- Claim C8, witness: with maximum `1/2` and reduction `1/2`, the
reduced bound above the threshold is strictly below the maximum. -/
theorem turn_acceleration_characterization_witness :
    turnAcceleration quietContext.parameters ⟨1/5, 0, 0⟩ <
      quietContext.parameters.max_turn_acceleration := by
  have h := turn_acceleration_characterization quietContext Step.ZERO Side.left
    ⟨1/5, 0, 0⟩
  exact (h.1 (by decide)).2 (by decide) (by decide)

/-- Claim C9: acceleration limiting passes the lateral component
through unchanged — the smoothed step's left equals the requested
step's left. -/
theorem left_passthrough (context : Context) (requested_step : Step)
    (support_side : Side) (last_requested_step : Step) :
    (Walking.new context requested_step support_side
        last_requested_step).requested_step.left = requested_step.left := rfl

/-- Claim C10: for nonnegative acceleration parameters and reduction
factor the lower clamp bound never exceeds the upper one, in every
forward branch and in the turn clamp, so both clamp calls of
`Walking::new` stay on the non-panicking domain of Rust's `clamp`. -/
theorem walking_new_clamps_well_defined (context : Context) (last_requested_step : Step)
    (hf : 0 ≤ context.parameters.max_forward_acceleration)
    (ht : 0 ≤ context.parameters.max_turn_acceleration)
    (hr : 0 ≤ context.parameters.forward_turn_reduction) :
    (forwardAccelerationBounds context.parameters last_requested_step).1 ≤
      (forwardAccelerationBounds context.parameters last_requested_step).2 ∧
    -(turnAcceleration context.parameters last_requested_step) ≤
      turnAcceleration context.parameters last_requested_step ∧
    (∀ x : ℚ,
      checkedClamp x (forwardAccelerationBounds context.parameters last_requested_step).1
          (forwardAccelerationBounds context.parameters last_requested_step).2 =
        some (clamp x (forwardAccelerationBounds context.parameters last_requested_step).1
          (forwardAccelerationBounds context.parameters last_requested_step).2)) ∧
    (∀ x : ℚ,
      checkedClamp x (-(turnAcceleration context.parameters last_requested_step))
          (turnAcceleration context.parameters last_requested_step) =
        some (clamp x (-(turnAcceleration context.parameters last_requested_step))
          (turnAcceleration context.parameters last_requested_step))) := by
  have hb : (forwardAccelerationBounds context.parameters last_requested_step).1 ≤
      (forwardAccelerationBounds context.parameters last_requested_step).2 := by
    unfold forwardAccelerationBounds
    split_ifs with h1 h2 <;> dsimp only <;> push_neg at * <;> linarith
  have hturn : 0 ≤ turnAcceleration context.parameters last_requested_step := by
    unfold turnAcceleration
    split_ifs
    · exact mul_nonneg ht hr
    · exact ht
  refine ⟨hb, by linarith, fun x => ?_, fun x => ?_⟩
  · unfold checkedClamp
    rw [if_pos hb]
  · unfold checkedClamp
    rw [if_pos (by linarith : -(turnAcceleration context.parameters last_requested_step)
      ≤ turnAcceleration context.parameters last_requested_step)]

/-- Claim C10, witness: the forward bounds and turn bound are
well-ordered on a concrete parameter set and previous step. -/
theorem walking_new_clamps_well_defined_witness :
    (forwardAccelerationBounds quietContext.parameters ⟨1/5, 0, 0⟩).1 ≤
      (forwardAccelerationBounds quietContext.parameters ⟨1/5, 0, 0⟩).2 ∧
    -(turnAcceleration quietContext.parameters ⟨1/5, 0, 0⟩) ≤
      turnAcceleration quietContext.parameters ⟨1/5, 0, 0⟩ := by
  have h := walking_new_clamps_well_defined quietContext ⟨1/5, 0, 0⟩
    (by decide) (by decide) (by decide)
  exact ⟨h.1, h.2.1⟩

end Hulk
